import Mathlib

/-!
Verification development for the uniclubs comments service.

Part 1 embeds the comment domain service
(`internal/services/commentservice/comment.go`): the five operations
`Create`, `Update`, `Delete`, `GetByID`, `ListByPostID` and the error
normalisation function `handleErr`.  Collaborator ports (storage
Provider/Creator/Updater/Deleter and the user directory UserProvider) are
modelled as function-valued fields of structures mirroring the Go
interfaces; each operation additionally returns the ordered list of port
calls it issued, so properties about which collaborators were (not)
invoked can be stated.  Go `time.Now()` reads are passed in as explicit
`Nat` timestamps (one parameter per textual call site); Go `int64` user
ids are modelled as `Int` (only equality on them is used, so overflow is
irrelevant); Go sentinel errors compared with `errors.Is` are modelled as
constructors of an error type, with `other` standing for any
unclassified collaborator error.

Part 2 embeds the browser client (the HTML/JS page): the DOM list of
rendered comment elements, the `new_comment` / `edit_comment` /
`remove_comment` publication handlers, and the `deleteComment` /
`updateComment` publish helpers with their `commentId.split("-")[1]`
extraction.
-/

namespace UniclubsComments

/-- Modelled from the spec (§7): the `domain` error sentinels of the
repository's `domain` package are not under `src/`; they are distinct
sentinel error values compared with `errors.Is`.  `other tag` stands for
an arbitrary unclassified collaborator error (raw storage/transport
errors). -/
inductive GoError where
  | invalidID
  | userNotFound
  | commentNotFound
  | invalidArg
  | unauthorized
  | internal
  | other (tag : Nat)
deriving DecidableEq

/-- `true` exactly on the closed error taxonomy the spec allows callers to
observe (§7); `false` on raw collaborator errors. -/
def GoError.isTaxonomy : GoError → Bool
  | .other _ => false
  | _ => true

/-- Modelled from the spec (§3): `domain.User` is not under `src/`;
identity plus display attributes (the client reads `id`, `first_name`,
`last_name`). -/
structure User where
  id : Int
  firstName : String
  lastName : String
deriving DecidableEq

/-- Modelled from the spec (§3): `domain.Comment` is not under `src/`;
fields as listed in the data model. Timestamps are `Nat` instants. -/
structure Comment where
  id : String
  postID : String
  user : User
  body : String
  createdAt : Nat
  updatedAt : Nat
deriving DecidableEq

/-- Modelled from the spec (§3): `domain.Filter` is opaque query
parameters, passed through unmodified; one opaque field suffices. -/
structure Filter where
  raw : Nat
deriving DecidableEq

/-- Modelled from the spec (§3): `domain.PaginationMetadata` is an opaque
page descriptor, passed through unmodified. -/
structure PaginationMetadata where
  raw : Nat
deriving DecidableEq

/-- Modelled from the spec (§3, §8): `domain.NewID` is not under `src/`;
it generates a fresh opaque unique comment identifier.  Modelled as an
injective generator from a seed, always producing a non-empty string. -/
def NewID (seed : Nat) : String := String.mk ('c' :: (toString seed).data)

/-- `Provider` interface (comment.go lines 32-35). -/
structure Provider where
  GetComment : String → Except GoError Comment
  ListPostComments : String → Filter → Except GoError (List Comment × PaginationMetadata)

/-- `Creator` interface (comment.go lines 38-40). -/
structure Creator where
  CreateComment : Comment → Except GoError Comment

/-- `Updater` interface (comment.go lines 43-45). -/
structure Updater where
  UpdateComment : Comment → Except GoError Comment

/-- `Deleter` interface (comment.go lines 48-50). -/
structure Deleter where
  DeleteComment : String → Except GoError Unit

/-- `UserProvider` interface (comment.go lines 53-55). -/
structure UserProvider where
  GetUser : Int → Except GoError User

/-- `Service` (comment.go lines 22-29); the logger is elided (it only
records the `Internal`-path message). -/
structure Service where
  provider : Provider
  creator : Creator
  updater : Updater
  deleter : Deleter
  userProvider : UserProvider

/-- Modelled from the spec (§4.1 operation signatures): the DTO types of
the `commentservice` package are not under `src/`. -/
structure CreateCommentDTO where
  userID : Int
  postID : String
  body : String
deriving DecidableEq

/-- Modelled from the spec (§4.1 operation signatures). -/
structure UpdateCommentDTO where
  commentID : String
  userID : Int
  body : String
deriving DecidableEq

/-- Modelled from the spec (§4.1 operation signatures). -/
structure DeleteCommentDTO where
  commentID : String
  userID : Int
deriving DecidableEq

/-- One collaborator (port) invocation, recorded in call order by each
service operation. -/
inductive PortCall where
  | getUser (userID : Int)
  | getComment (commentID : String)
  | listPostComments (postID : String) (filter : Filter)
  | createComment (c : Comment)
  | updateComment (c : Comment)
  | deleteComment (commentID : String)
deriving DecidableEq

/-- A port call that mutates storage (create / update / delete). -/
def PortCall.isMutating : PortCall → Bool
  | .createComment _ => true
  | .updateComment _ => true
  | .deleteComment _ => true
  | _ => false

/-- `handleErr` (comment.go lines 161-173): the `switch` over
`errors.Is`; the `default` branch logs and returns `domain.ErrInternal`.
Logging is elided. -/
def handleErr (err : GoError) : GoError :=
  if err = .invalidID then err
  else if err = .userNotFound ∨ err = .commentNotFound then err
  else if err = .invalidArg then err
  else .internal

/-- The comment literal constructed by `Create` (comment.go lines 77-84):
fresh id, resolved user snapshot, dto body, and the two separate
`time.Now()` reads as `createdAt` / `updatedAt`. -/
def builtComment (dto : CreateCommentDTO) (user : User) (seed t1 t2 : Nat) : Comment :=
  { id := NewID seed, postID := dto.postID, user := user, body := dto.body,
    createdAt := t1, updatedAt := t2 }

/-- `Service.Create` (comment.go lines 68-90).  `seed` feeds
`domain.NewID`; `t1`, `t2` are the two `time.Now()` reads (lines 82-83).
Returns the Go result paired with the ordered port-call trace. -/
def Service.Create (s : Service) (dto : CreateCommentDTO) (seed t1 t2 : Nat) :
    Except GoError Comment × List PortCall :=
  match s.userProvider.GetUser dto.userID with
  | .error e => (.error (handleErr e), [.getUser dto.userID])
  | .ok user =>
    match s.creator.CreateComment (builtComment dto user seed t1 t2) with
    | .error e =>
      (.error (handleErr e),
        [.getUser dto.userID, .createComment (builtComment dto user seed t1 t2)])
    | .ok createdComment =>
      (.ok createdComment,
        [.getUser dto.userID, .createComment (builtComment dto user seed t1 t2)])

/-- The in-place mutation `comment.Body = dto.Body; comment.UpdatedAt =
time.Now()` of `Update` (comment.go lines 105-106). -/
def withUpdate (comment : Comment) (body : String) (t : Nat) : Comment :=
  { comment with body := body, updatedAt := t }

/-- `Service.Update` (comment.go lines 92-114).  `t` is the `time.Now()`
read at line 106. -/
def Service.Update (s : Service) (dto : UpdateCommentDTO) (t : Nat) :
    Except GoError Comment × List PortCall :=
  match s.provider.GetComment dto.commentID with
  | .error e => (.error (handleErr e), [.getComment dto.commentID])
  | .ok comment =>
    if comment.user.id ≠ dto.userID then
      (.error .unauthorized, [.getComment dto.commentID])
    else
      match s.updater.UpdateComment (withUpdate comment dto.body t) with
      | .error e =>
        (.error (handleErr e),
          [.getComment dto.commentID, .updateComment (withUpdate comment dto.body t)])
      | .ok updatedComment =>
        (.ok updatedComment,
          [.getComment dto.commentID, .updateComment (withUpdate comment dto.body t)])

/-- `Service.Delete` (comment.go lines 116-135). -/
def Service.Delete (s : Service) (dto : DeleteCommentDTO) :
    Except GoError Unit × List PortCall :=
  match s.provider.GetComment dto.commentID with
  | .error e => (.error (handleErr e), [.getComment dto.commentID])
  | .ok comment =>
    if comment.user.id ≠ dto.userID then
      (.error .unauthorized, [.getComment dto.commentID])
    else
      match s.deleter.DeleteComment dto.commentID with
      | .error e =>
        (.error (handleErr e), [.getComment dto.commentID, .deleteComment dto.commentID])
      | .ok _ =>
        (.ok (), [.getComment dto.commentID, .deleteComment dto.commentID])

/-- `Service.GetByID` (comment.go lines 137-147). -/
def Service.GetByID (s : Service) (id : String) :
    Except GoError Comment × List PortCall :=
  match s.provider.GetComment id with
  | .error e => (.error (handleErr e), [.getComment id])
  | .ok comment => (.ok comment, [.getComment id])

/-- `Service.ListByPostID` (comment.go lines 149-159). -/
def Service.ListByPostID (s : Service) (postID : String) (filter : Filter) :
    Except GoError (List Comment × PaginationMetadata) × List PortCall :=
  match s.provider.ListPostComments postID filter with
  | .error e => (.error (handleErr e), [.listPostComments postID filter])
  | .ok r => (.ok r, [.listPostComments postID filter])

namespace Client

/-- `replaceTag` (client script): maps `&`, `<`, `>` to their HTML
entities, any other character to itself. -/
def replaceTag (c : Char) : String :=
  if c = '&' then "&amp;"
  else if c = '<' then "&lt;"
  else if c = '>' then "&gt;"
  else String.mk [c]

/-- `safeTagsReplace` (client script): `str.replace(/[&<>]/g, replaceTag)`. -/
def safeTagsReplace (s : String) : String :=
  String.join (s.data.map replaceTag)

/-- The user object carried in event payloads; the client reads `id`,
`first_name`, `last_name`. -/
structure JsUser where
  id : Int
  first_name : String
  last_name : String
deriving DecidableEq

/-- The `Comment` class of the client script (fields as in its
constructor). -/
structure JsComment where
  id : String
  post_id : String
  user : JsUser
  body : String
  created_at : String
  updated_at : String
  meta : String
deriving DecidableEq

/-- One rendered comment element in the `#chat-messages` container:
its DOM `id` attribute and the `textContent` of its `.body` child (the
other children — user, created, buttons — carry no state the protocol
handlers read or write). -/
structure DomElem where
  eid : String
  body : String
deriving DecidableEq

/-- The `#chat-messages` container: its child elements in document
order. -/
abbrev Dom := List DomElem

/-- `Comment.prototype.toHtml` (client script): builds an element with
DOM id `'comment-' + this.id` whose `.body` child holds `this.body`. -/
def JsComment.toHtml (c : JsComment) : DomElem :=
  { eid := "comment-" ++ c.id, body := c.body }

/-- `drawComment` (client script): appends the rendered element to
`#chat-messages` (scrolling elided — it does not change the child
list). -/
def drawComment (d : Dom) (e : DomElem) : Dom := d ++ [e]

/-- The `payload` of a `new_comment` publication. -/
structure NewCommentPayload where
  id : String
  post_id : String
  user : JsUser
  body : String
  created_at : String
  updated_at : String
deriving DecidableEq

/-- `handleNewComment` (client script): constructs a `Comment` from the
payload (body passed through `safeTagsReplace`, `meta` set to the
stringified context — elided as the empty string since no handler reads
it) and draws it. -/
def handleNewComment (d : Dom) (p : NewCommentPayload) : Dom :=
  drawComment d (JsComment.toHtml
    { id := p.id, post_id := p.post_id, user := p.user,
      body := safeTagsReplace p.body, created_at := p.created_at,
      updated_at := p.updated_at, meta := "" })

/-- `document.getElementById` over the message container: the first
element with the given DOM id, or `none` (JS `null`). -/
def getElementById (d : Dom) (i : String) : Option DomElem :=
  d.find? (fun e => e.eid = i)

/-- Overwrite the `.body` text of the first element with the given DOM
id (the element `getElementById` returns). -/
def setBodyOfFirst : Dom → String → String → Dom
  | [], _, _ => []
  | e :: rest, i, b =>
    if e.eid = i then { e with body := b } :: rest
    else e :: setBodyOfFirst rest i b

/-- `handleEditComment` (client script):
`document.getElementById('comment-' + payload.id).querySelector('.body').textContent = payload.body;`
— there is no null check, so when no element with that id exists the
member access on `null` throws a `TypeError`; that crash is modelled as
`none`.  Otherwise the first matching element's body is overwritten and
the new DOM is returned. -/
def handleEditComment (d : Dom) (pid pbody : String) : Option Dom :=
  match getElementById d ("comment-" ++ pid) with
  | none => none
  | some _ => some (setBodyOfFirst d ("comment-" ++ pid) pbody)

/-- Remove the first element with the given DOM id; unchanged when
absent. -/
def removeFirst : Dom → String → Dom
  | [], _ => []
  | e :: rest, i => if e.eid = i then rest else e :: removeFirst rest i

/-- `handleRemoveComment` (client script): looks the element up, and
only if it exists (`if (commentElement)`) removes it. -/
def handleRemoveComment (d : Dom) (pcid : String) : Dom :=
  match getElementById d ("comment-" ++ pcid) with
  | none => d
  | some _ => removeFirst d ("comment-" ++ pcid)

/-- JS `String.prototype.split` with separator `"-"`, on the underlying
character list: splits at every `'-'`, adjacent separators yielding
empty segments (the JS semantics for a one-character string
separator). -/
def splitDash : List Char → List (List Char)
  | [] => [[]]
  | c :: rest =>
    if c = '-' then [] :: splitDash rest
    else (c :: (splitDash rest).headD []) :: (splitDash rest).tail

/-- `commentId.split("-")[1]` as the client computes it (JS index 1 of
the split array; for the element ids the client builds the array always
has at least two entries). -/
def splitDashSecond (s : String) : String :=
  String.mk ((splitDash s.data).getD 1 [])

/-- An event published by the client's `deleteComment` / `updateComment`
helpers: the envelope `type`, the `payload.comment_id`, and the
`payload.body` when present. -/
structure PublishedEvent where
  type : String
  comment_id : String
  body : Option String
deriving DecidableEq

/-- `deleteComment` (client script): publishes
`{"payload": {"comment_id": commentId.split("-")[1]}, "type": "delete_comment"}`. -/
def deleteComment (commentId : String) : PublishedEvent :=
  { type := "delete_comment", comment_id := splitDashSecond commentId, body := none }

/-- `updateComment` (client script): publishes
`{"payload": {"comment_id": commentId.split("-")[1], "body": body}, "type": "update_comment"}`. -/
def updateComment (commentId : String) (body : String) : PublishedEvent :=
  { type := "update_comment", comment_id := splitDashSecond commentId, body := some body }

end Client

/-! Concrete collaborator instantiations used to exercise the theorems
on closed inputs (stub ports, as the spec's §9 dependency-injection note
describes for tests). -/

/-- A stub directory entry: user 9. -/
def demoUser : User := ⟨9, "Ann", "Lee"⟩

/-- A stub stored comment `C1` on post `P1`, authored by `demoUser`. -/
def storedC1 : Comment := ⟨"C1", "P1", demoUser, "hello", 3, 5⟩

/-- Stub service whose fetch port always returns `storedC1`, whose
directory always resolves `demoUser`, and whose mutating ports echo
their argument / succeed. -/
def svcStored : Service :=
  { provider := ⟨fun _ => .ok storedC1, fun _ _ => .ok ([storedC1], ⟨1⟩)⟩,
    creator := ⟨fun c => .ok c⟩,
    updater := ⟨fun c => .ok c⟩,
    deleter := ⟨fun _ => .ok ()⟩,
    userProvider := ⟨fun _ => .ok demoUser⟩ }

/-- Stub service whose fetch port reports every comment absent and whose
directory reports every user absent. -/
def svcMissing : Service :=
  { provider := ⟨fun _ => .error .commentNotFound, fun _ _ => .error .commentNotFound⟩,
    creator := ⟨fun c => .ok c⟩,
    updater := ⟨fun c => .ok c⟩,
    deleter := ⟨fun _ => .ok ()⟩,
    userProvider := ⟨fun _ => .error .userNotFound⟩ }

/-- Stub service whose fetch port returns the sentinel `unauthorized` as
a collaborator error (to probe which errors `handleErr` passes
through). -/
def svcUnauthPort : Service :=
  { provider := ⟨fun _ => .error .unauthorized, fun _ _ => .error .unauthorized⟩,
    creator := ⟨fun c => .ok c⟩,
    updater := ⟨fun c => .ok c⟩,
    deleter := ⟨fun _ => .ok ()⟩,
    userProvider := ⟨fun _ => .error .unauthorized⟩ }

/-- Claim C1: for every `Update` and every `Delete` call where the
stored comment fetched for the comment id has `user.id` different from
the caller-supplied `userID`, the operation fails with the
`Unauthorized` error; the comparison is against the stored comment's
`user.id` only. -/
theorem Update_Delete_unauthorized (s : Service) (udto : UpdateCommentDTO)
    (ddto : DeleteCommentDTO) (t : Nat) (cu cd : Comment)
    (hu : s.provider.GetComment udto.commentID = Except.ok cu)
    (hu2 : cu.user.id ≠ udto.userID)
    (hd : s.provider.GetComment ddto.commentID = Except.ok cd)
    (hd2 : cd.user.id ≠ ddto.userID) :
    (s.Update udto t).fst = Except.error GoError.unauthorized ∧
    (s.Delete ddto).fst = Except.error GoError.unauthorized := by
  constructor
  · simp [Service.Update, hu, hu2]
  · simp [Service.Delete, hd, hd2]

/-- Witness for C1 at concrete inputs: stored author 9, caller 7. -/
theorem Update_Delete_unauthorized_witness :
    (svcStored.Update ⟨"C1", 7, "edited"⟩ 10).fst = Except.error GoError.unauthorized ∧
    (svcStored.Delete ⟨"C1", 7⟩).fst = Except.error GoError.unauthorized :=
  Update_Delete_unauthorized svcStored ⟨"C1", 7, "edited"⟩ ⟨"C1", 7⟩ 10 storedC1 storedC1
    rfl (by decide) rfl (by decide)

/-- Claim C2: on the failing-authorization path, the trace of issued
port calls is exactly the single fetch — the update port is never
invoked by the failing `Update`, the delete port never by the failing
`Delete`, and no mutating port call occurs at all. -/
theorem unauthorized_no_mutating_call (s : Service) (udto : UpdateCommentDTO)
    (ddto : DeleteCommentDTO) (t : Nat) (cu cd : Comment)
    (hu : s.provider.GetComment udto.commentID = Except.ok cu)
    (hu2 : cu.user.id ≠ udto.userID)
    (hd : s.provider.GetComment ddto.commentID = Except.ok cd)
    (hd2 : cd.user.id ≠ ddto.userID) :
    (s.Update udto t).snd = [PortCall.getComment udto.commentID] ∧
    (s.Delete ddto).snd = [PortCall.getComment ddto.commentID] ∧
    ((s.Update udto t).snd.all fun c => ! c.isMutating) = true ∧
    ((s.Delete ddto).snd.all fun c => ! c.isMutating) = true := by
  refine ⟨?_, ?_, ?_, ?_⟩ <;>
    simp [Service.Update, Service.Delete, hu, hu2, hd, hd2, PortCall.isMutating]

/-- Witness for C2 at concrete inputs: stored author 9, caller 7. -/
theorem unauthorized_no_mutating_call_witness :
    (svcStored.Update ⟨"C1", 7, "edited"⟩ 10).snd = [PortCall.getComment "C1"] ∧
    (svcStored.Delete ⟨"C1", 7⟩).snd = [PortCall.getComment "C1"] ∧
    ((svcStored.Update ⟨"C1", 7, "edited"⟩ 10).snd.all fun c => ! c.isMutating) = true ∧
    ((svcStored.Delete ⟨"C1", 7⟩).snd.all fun c => ! c.isMutating) = true :=
  unauthorized_no_mutating_call svcStored ⟨"C1", 7, "edited"⟩ ⟨"C1", 7⟩ 10 storedC1 storedC1
    rfl (by decide) rfl (by decide)

/-- Claim C8: when the directory port reports the user absent
(`UserNotFound`), `Create` fails with `UserNotFound` and its trace is
the single directory call — the creation port is never invoked. -/
theorem Create_user_not_found (s : Service) (dto : CreateCommentDTO) (seed t1 t2 : Nat)
    (h : s.userProvider.GetUser dto.userID = Except.error GoError.userNotFound) :
    s.Create dto seed t1 t2 =
      (Except.error GoError.userNotFound, [PortCall.getUser dto.userID]) := by
  simp [Service.Create, h, handleErr]

/-- Witness for C8 at concrete inputs. -/
theorem Create_user_not_found_witness :
    svcMissing.Create ⟨42, "P1", "hi"⟩ 0 0 0 =
      (Except.error GoError.userNotFound, [PortCall.getUser 42]) :=
  Create_user_not_found svcMissing ⟨42, "P1", "hi"⟩ 0 0 0 rfl

/-- Claim C3 counterexample: the claim says the `Unauthorized` sentinel
is passed through verbatim from collaborators, but `handleErr` has no
case for it — a fetch port failing with `unauthorized` surfaces to the
caller as `internal`, not `unauthorized`. -/
theorem collaborator_unauthorized_collapsed_to_internal :
    (svcUnauthPort.GetByID "C1").fst = Except.error GoError.internal ∧
    GoError.internal ≠ GoError.unauthorized := by
  exact ⟨rfl, by decide⟩

/-- Claim C3 (amended): exactly the four errors `InvalidID`,
`UserNotFound`, `CommentNotFound`, `InvalidArgument` are passed through
verbatim by `handleErr`; every other collaborator error — the
`Unauthorized` sentinel included — is collapsed to `Internal`, so
callers only ever observe members of the closed taxonomy, never a raw
collaborator error. -/
theorem handleErr_closed_taxonomy (e : GoError) :
    handleErr e =
      (if e = GoError.invalidID ∨ e = GoError.userNotFound ∨
          e = GoError.commentNotFound ∨ e = GoError.invalidArg then e
       else GoError.internal) ∧
    (handleErr e).isTaxonomy = true := by
  cases e <;> simp [handleErr, GoError.isTaxonomy]

/-- `domain.NewID` never yields the empty identifier. -/
theorem NewID_ne_empty (seed : Nat) : NewID seed ≠ "" := by
  intro h
  have h2 : ('c' :: (toString seed).data) = ([] : List Char) := congrArg String.data h
  cases h2

/-- Claim C4 counterexample: a successful `Create` whose two
`time.Now()` reads differ (here instants 0 and 1, with an echoing create
port) returns a comment whose `created_at` is not equal to its
`updated_at` — the two timestamps come from separate clock reads
(comment.go lines 82-83), so equality is not guaranteed. -/
theorem Create_timestamps_differ_cex :
    ((svcStored.Create ⟨42, "P1", "hi"⟩ 0 0 1).fst.map
      (fun r => r.createdAt == r.updatedAt)) = Except.ok false := rfl

/-- Claim C4 (amended): for every `Create` that succeeds, the comment
submitted to the create port has a non-empty fresh id, its embedded user
snapshot equals the directory-resolved `User`, and its `created_at` is
less than or equal to its `updated_at` (equality is not guaranteed: the
two timestamps are separate monotone clock reads); the returned comment
is exactly the create port's response to that submission. -/
theorem Create_success_shape (s : Service) (dto : CreateCommentDTO) (seed t1 t2 : Nat)
    (u : User) (r : Comment)
    (hu : s.userProvider.GetUser dto.userID = Except.ok u)
    (ht : t1 ≤ t2)
    (hr : (s.Create dto seed t1 t2).fst = Except.ok r) :
    (s.Create dto seed t1 t2).snd =
      [PortCall.getUser dto.userID,
       PortCall.createComment (builtComment dto u seed t1 t2)] ∧
    (builtComment dto u seed t1 t2).id ≠ "" ∧
    (builtComment dto u seed t1 t2).user = u ∧
    (builtComment dto u seed t1 t2).createdAt ≤ (builtComment dto u seed t1 t2).updatedAt ∧
    s.creator.CreateComment (builtComment dto u seed t1 t2) = Except.ok r := by
  cases hc : s.creator.CreateComment (builtComment dto u seed t1 t2) with
  | error e =>
    have hg : (s.Create dto seed t1 t2).fst = Except.error (handleErr e) := by
      simp [Service.Create, hu, hc]
    rw [hg] at hr; simp at hr
  | ok c =>
    have hg : s.Create dto seed t1 t2 =
        (Except.ok c,
          [PortCall.getUser dto.userID,
           PortCall.createComment (builtComment dto u seed t1 t2)]) := by
      simp [Service.Create, hu, hc]
    simp only [hg, Except.ok.injEq] at hr
    subst hr
    rw [hg]
    exact ⟨rfl, NewID_ne_empty seed, rfl, ht, rfl⟩

/-- Witness for the amended C4 at concrete inputs. -/
theorem Create_success_shape_witness :
    (svcStored.Create ⟨42, "P1", "hi"⟩ 0 0 1).snd =
      [PortCall.getUser 42,
       PortCall.createComment (builtComment ⟨42, "P1", "hi"⟩ demoUser 0 0 1)] ∧
    (builtComment ⟨42, "P1", "hi"⟩ demoUser 0 0 1).id ≠ "" ∧
    (builtComment ⟨42, "P1", "hi"⟩ demoUser 0 0 1).user = demoUser ∧
    (builtComment ⟨42, "P1", "hi"⟩ demoUser 0 0 1).createdAt ≤
      (builtComment ⟨42, "P1", "hi"⟩ demoUser 0 0 1).updatedAt ∧
    svcStored.creator.CreateComment (builtComment ⟨42, "P1", "hi"⟩ demoUser 0 0 1) =
      Except.ok (builtComment ⟨42, "P1", "hi"⟩ demoUser 0 0 1) :=
  Create_success_shape svcStored ⟨42, "P1", "hi"⟩ 0 0 1 demoUser
    (builtComment ⟨42, "P1", "hi"⟩ demoUser 0 0 1) rfl (by decide) rfl

/-- Claim C5: a successful `Update` submits to the update port the
stored comment with only `body` replaced and `updated_at` set to the new
clock read — `id`, `post_id`, `user`, `created_at` are preserved
unchanged, and (the clock reads being monotone) the new `updated_at` is
greater than or equal to the previous one; the returned comment is the
update port's response to that submission. -/
theorem Update_preserves_frame (s : Service) (dto : UpdateCommentDTO) (t : Nat)
    (stored r : Comment)
    (hget : s.provider.GetComment dto.commentID = Except.ok stored)
    (hr : (s.Update dto t).fst = Except.ok r)
    (ht : stored.updatedAt ≤ t) :
    (s.Update dto t).snd =
      [PortCall.getComment dto.commentID,
       PortCall.updateComment (withUpdate stored dto.body t)] ∧
    (withUpdate stored dto.body t).id = stored.id ∧
    (withUpdate stored dto.body t).postID = stored.postID ∧
    (withUpdate stored dto.body t).user = stored.user ∧
    (withUpdate stored dto.body t).createdAt = stored.createdAt ∧
    (withUpdate stored dto.body t).body = dto.body ∧
    stored.updatedAt ≤ (withUpdate stored dto.body t).updatedAt ∧
    s.updater.UpdateComment (withUpdate stored dto.body t) = Except.ok r := by
  by_cases hid : stored.user.id = dto.userID
  · cases hc : s.updater.UpdateComment (withUpdate stored dto.body t) with
    | error e =>
      have hg : (s.Update dto t).fst = Except.error (handleErr e) := by
        simp [Service.Update, hget, hid, hc]
      rw [hg] at hr; simp at hr
    | ok c =>
      have hg : s.Update dto t =
          (Except.ok c,
            [PortCall.getComment dto.commentID,
             PortCall.updateComment (withUpdate stored dto.body t)]) := by
        simp [Service.Update, hget, hid, hc]
      simp only [hg, Except.ok.injEq] at hr
      subst hr
      rw [hg]
      exact ⟨rfl, rfl, rfl, rfl, rfl, rfl, ht, rfl⟩
  · have hg : (s.Update dto t).fst = Except.error GoError.unauthorized := by
      simp [Service.Update, hget, hid]
    rw [hg] at hr; simp at hr

/-- Witness for C5 at concrete inputs: stored author 9 updates their
own comment at instant 10. -/
theorem Update_preserves_frame_witness :
    (svcStored.Update ⟨"C1", 9, "edited"⟩ 10).snd =
      [PortCall.getComment "C1",
       PortCall.updateComment (withUpdate storedC1 "edited" 10)] ∧
    (withUpdate storedC1 "edited" 10).id = storedC1.id ∧
    (withUpdate storedC1 "edited" 10).postID = storedC1.postID ∧
    (withUpdate storedC1 "edited" 10).user = storedC1.user ∧
    (withUpdate storedC1 "edited" 10).createdAt = storedC1.createdAt ∧
    (withUpdate storedC1 "edited" 10).body = "edited" ∧
    storedC1.updatedAt ≤ (withUpdate storedC1 "edited" 10).updatedAt ∧
    svcStored.updater.UpdateComment (withUpdate storedC1 "edited" 10) =
      Except.ok (withUpdate storedC1 "edited" 10) :=
  Update_preserves_frame svcStored ⟨"C1", 9, "edited"⟩ 10 storedC1
    (withUpdate storedC1 "edited" 10) rfl rfl (by decide)

/-- Claim C9: `GetByID` and `ListByPostID` are pure pass-throughs: on
every path their trace is the single read-port call (so no mutating port
is ever invoked), `GetByID` returns exactly the fetched comment and
passes `CommentNotFound` through when the port reports absence, and
`ListByPostID` forwards `postID` and the filter unmodified and returns
the port's result. -/
theorem GetByID_ListByPostID_pass_through (s : Service) (id postID : String) (f : Filter) :
    (s.GetByID id).snd = [PortCall.getComment id] ∧
    (s.ListByPostID postID f).snd = [PortCall.listPostComments postID f] ∧
    ((s.GetByID id).snd.all fun c => ! c.isMutating) = true ∧
    ((s.ListByPostID postID f).snd.all fun c => ! c.isMutating) = true ∧
    (∀ c, s.provider.GetComment id = Except.ok c → (s.GetByID id).fst = Except.ok c) ∧
    (s.provider.GetComment id = Except.error GoError.commentNotFound →
      (s.GetByID id).fst = Except.error GoError.commentNotFound) ∧
    (∀ r, s.provider.ListPostComments postID f = Except.ok r →
      (s.ListByPostID postID f).fst = Except.ok r) := by
  refine ⟨?_, ?_, ?_, ?_, ?_, ?_, ?_⟩
  · cases h : s.provider.GetComment id <;> simp [Service.GetByID, h]
  · cases h : s.provider.ListPostComments postID f <;> simp [Service.ListByPostID, h]
  · cases h : s.provider.GetComment id <;> simp [Service.GetByID, h, PortCall.isMutating]
  · cases h : s.provider.ListPostComments postID f <;>
      simp [Service.ListByPostID, h, PortCall.isMutating]
  · intro c h; simp [Service.GetByID, h]
  · intro h; simp [Service.GetByID, h, handleErr]
  · intro r h; simp [Service.ListByPostID, h]

/-- Witness for C9 at concrete inputs: a present comment, an absent
comment, and a page listing. -/
theorem GetByID_ListByPostID_pass_through_witness :
    (svcStored.GetByID "C1").fst = Except.ok storedC1 ∧
    (svcMissing.GetByID "nope").fst = Except.error GoError.commentNotFound ∧
    (svcStored.ListByPostID "P1" ⟨1⟩).fst = Except.ok ([storedC1], ⟨1⟩) :=
  ⟨(GetByID_ListByPostID_pass_through svcStored "C1" "P1" ⟨1⟩).2.2.2.2.1 storedC1 rfl,
   (GetByID_ListByPostID_pass_through svcMissing "nope" "P1" ⟨1⟩).2.2.2.2.2.1 rfl,
   (GetByID_ListByPostID_pass_through svcStored "C1" "P1" ⟨1⟩).2.2.2.2.2.2
     ([storedC1], ⟨1⟩) rfl⟩

/-- A `new_comment` payload used to exercise duplicate delivery. -/
def dupPayload : Client.NewCommentPayload :=
  { id := "X1", post_id := "P1", user := ⟨5, "Bo", "Li"⟩, body := "hi",
    created_at := "t0", updated_at := "t0" }

/-- Claim C6 (code-bug evaluation): `handleNewComment` appends
unconditionally — it never checks whether an element with the same
comment id is already rendered — so delivering the same `new_comment`
twice leaves two visible entries for the id, not one as the protocol
requires. -/
theorem duplicate_new_comment_two_entries :
    ((Client.handleNewComment (Client.handleNewComment [] dupPayload) dupPayload).filter
      (fun e => e.eid = "comment-X1")).length = 2 := by
  decide

/-- An element for a different comment (`Y1`), present while `X1` is
unknown. -/
def otherElem : Client.DomElem := { eid := "comment-Y1", body := "b" }

/-- Claim C7 (code-bug evaluation): on a DOM with no entry for comment
`X1`, `handleRemoveComment` is the benign no-op the protocol requires
(it guards with `if (commentElement)`), but `handleEditComment`
dereferences the `null` returned by `getElementById` without a check and
throws a `TypeError` (modelled as `none`) instead of being a no-op. -/
theorem edit_unknown_crashes_remove_unknown_noop :
    Client.handleEditComment [otherElem] "X1" "newbody" = none ∧
    Client.handleRemoveComment [otherElem] "X1" = [otherElem] := by
  exact ⟨by decide, by decide⟩

/-- `splitDash` never returns the empty list (JS `split` always yields
at least one segment). -/
theorem splitDash_ne_nil (l : List Char) : Client.splitDash l ≠ [] := by
  cases l with
  | nil => simp [Client.splitDash]
  | cons c rest =>
    simp only [Client.splitDash]
    split <;> simp

/-- The first segment of `splitDash` is the run of characters before the
first `'-'`. -/
theorem splitDash_cons_form (l : List Char) :
    ∃ ss, Client.splitDash l = l.takeWhile (fun c => c != '-') :: ss := by
  induction l with
  | nil => exact ⟨[], rfl⟩
  | cons c rest ih =>
    obtain ⟨ss, hss⟩ := ih
    by_cases h : c = '-'
    · subst h
      exact ⟨Client.splitDash rest, by simp [Client.splitDash, List.takeWhile_cons]⟩
    · exact ⟨ss, by simp [Client.splitDash, h, hss, List.takeWhile_cons]⟩

/-- Splitting an element id `"comment-" ++ id` at `'-'` yields the
`"comment"` segment followed by the segments of `id` itself. -/
theorem splitDash_elemId (l : List Char) :
    Client.splitDash ("comment-".data ++ l) = "comment".data :: Client.splitDash l := rfl

/-- `('comment-' + id).split("-")[1]` is the run of characters of `id`
before its first `'-'`. -/
theorem splitDashSecond_elemId (id : String) :
    Client.splitDashSecond ("comment-" ++ id) =
      String.mk (id.data.takeWhile (fun c => c != '-')) := by
  obtain ⟨ss, hss⟩ := splitDash_cons_form id.data
  have hd : ("comment-" ++ id).data = "comment-".data ++ id.data := rfl
  unfold Client.splitDashSecond
  rw [hd, splitDash_elemId, hss]
  rfl

/-- `takeWhile (· != '-')` keeps the whole list when it has no dash. -/
theorem takeWhile_no_dash (l : List Char) (h : '-' ∉ l) :
    l.takeWhile (fun c => c != '-') = l := by
  induction l with
  | nil => rfl
  | cons c rest ih =>
    have hc : c ≠ '-' := fun e => h (e ▸ List.mem_cons_self c rest)
    simp only [List.takeWhile_cons]
    simp [hc, ih fun m => h (List.mem_cons_of_mem _ m)]

/-- `takeWhile (· != '-')` is a proper truncation when the list has a
dash. -/
theorem takeWhile_dash_ne (l : List Char) (h : '-' ∈ l) :
    l.takeWhile (fun c => c != '-') ≠ l := by
  induction l with
  | nil => cases h
  | cons c rest ih =>
    by_cases hc : c = '-'
    · subst hc
      simp [List.takeWhile_cons]
    · intro he
      rw [List.takeWhile_cons] at he
      simp only [hc, bne_iff_ne, ne_eq, not_false_eq_true, if_true, List.cons.injEq,
        true_and] at he
      rcases List.mem_cons.mp h with h1 | h2
      · exact hc h1.symm
      · exact ih h2 he

/-- Claim C10: the comment elements the client renders carry DOM id
`'comment-' + id`; both publish helpers (`updateComment` and
`deleteComment`) send `payload.comment_id = commentId.split("-")[1]`,
which is the run of the comment id's characters before its first `'-'`.
Hence a comment id containing `'-'` is sent as a strict proper
truncation of the true id, while an id without `'-'` is sent in full. -/
theorem published_comment_id_truncation (id : String) :
    (∀ c : Client.JsComment, c.toHtml.eid = "comment-" ++ c.id) ∧
    (Client.deleteComment ("comment-" ++ id)).comment_id =
      String.mk (id.data.takeWhile (fun c => c != '-')) ∧
    (∀ b, (Client.updateComment ("comment-" ++ id) b).comment_id =
      (Client.deleteComment ("comment-" ++ id)).comment_id) ∧
    ('-' ∉ id.data → (Client.deleteComment ("comment-" ++ id)).comment_id = id) ∧
    ('-' ∈ id.data →
      (Client.deleteComment ("comment-" ++ id)).comment_id ≠ id ∧
      ∃ rest, (Client.deleteComment ("comment-" ++ id)).comment_id.data ++ rest = id.data) := by
  refine ⟨fun c => rfl, splitDashSecond_elemId id, fun b => rfl, ?_, ?_⟩
  · intro h
    show Client.splitDashSecond ("comment-" ++ id) = id
    rw [splitDashSecond_elemId id, takeWhile_no_dash id.data h]
  · intro h
    constructor
    · intro he
      have h2 : (Client.deleteComment ("comment-" ++ id)).comment_id.data = id.data :=
        congrArg String.data he
      rw [show (Client.deleteComment ("comment-" ++ id)).comment_id =
            String.mk (id.data.takeWhile (fun c => c != '-')) from
            splitDashSecond_elemId id] at h2
      exact takeWhile_dash_ne id.data h h2
    · refine ⟨id.data.dropWhile (fun c => c != '-'), ?_⟩
      rw [show (Client.deleteComment ("comment-" ++ id)).comment_id =
            String.mk (id.data.takeWhile (fun c => c != '-')) from
            splitDashSecond_elemId id]
      exact List.takeWhile_append_dropWhile (fun c => c != '-') id.data

/-- Witness for C10 at concrete inputs: id `abc-def` is truncated to
`abc`; id `abc` is sent in full. -/
theorem published_comment_id_truncation_witness :
    (Client.deleteComment ("comment-" ++ "abc-def")).comment_id ≠ "abc-def" ∧
    (Client.deleteComment ("comment-" ++ "abc")).comment_id = "abc" :=
  ⟨((published_comment_id_truncation "abc-def").2.2.2.2 (by decide)).1,
   (published_comment_id_truncation "abc").2.2.2.1 (by decide)⟩

end UniclubsComments
